import Mathlib

/-
Verification of the audio-session state machine of the macos-dictate
repository (dictate.py, device_monitor.py, text_postprocessor.py).

The shallow embedding below translates the module-level mutable state of
dictate.py into an explicit `SessionState` record and each state-mutating
function into a pure function `SessionState → Env → SessionState × Effects`,
where `Env` packages the outcomes of the external collaborators the function
consults (device resolution, stream construction, the transcription engine,
the system clock) and `Effects` records the externally observable actions
(notifications shown, text delivered, pipeline spawned, engine invoked).

Audio samples are modelled as exact rationals; timestamps as natural-number
seconds.
-/

namespace Dictate

/-- The session phase of the spec, derived from the two boolean flags
`recording` and `transcribing` of dictate.py. -/
inductive Phase where
  | Idle
  | Recording
  | Transcribing
deriving DecidableEq, Repr

/-- A capture stream handle (`sd.InputStream`): the bound device index,
whether the stream is started (`stream.active`) and whether it has been
closed. -/
structure StreamRec where
  device : Nat
  active : Bool
  closed : Bool
deriving DecidableEq, Repr

/-- One audio chunk delivered by the audio callback (`indata.copy()`). -/
abbrev Chunk := List ℚ

/-- The module-level mutable state of dictate.py that the claims are about:
`recording`, `transcribing`, `stream`, `stream_healthy`, `last_heartbeat`,
`audio_queue`, `last_polled_device_name`, plus the most recent cleaned
transcript (written to the log by `transcribe_audio` and read back by the
repaste path). -/
structure SessionState where
  recording : Bool
  transcribing : Bool
  stream : Option StreamRec
  streamHealthy : Bool
  lastHeartbeat : Nat
  audioQueue : List Chunk
  lastPolledDeviceName : Option String
  lastTranscript : Option String
deriving DecidableEq, Repr

/-- The `phase` of the spec: `transcribing` wins (toggle_recording checks it
first), then `recording`, otherwise `Idle`. -/
def phase (s : SessionState) : Phase :=
  if s.transcribing then Phase.Transcribing
  else if s.recording then Phase.Recording
  else Phase.Idle

/-- Externally observable actions of one operation. -/
structure Effects where
  notifications : List (String × String)
  startedPipeline : Bool
  engineCalled : Bool
  engineInput : Option (List ℚ)
  delivered : List String
  restartExecuted : Bool
deriving DecidableEq, Repr

/-- No observable action. -/
def noEffects : Effects :=
  { notifications := []
    startedPipeline := false
    engineCalled := false
    engineInput := none
    delivered := []
    restartExecuted := false }

/-- Sequential composition of observable actions. -/
def Effects.merge (a b : Effects) : Effects :=
  { notifications := a.notifications ++ b.notifications
    startedPipeline := a.startedPipeline || b.startedPipeline
    engineCalled := a.engineCalled || b.engineCalled
    engineInput := a.engineInput.orElse (fun _ => b.engineInput)
    delivered := a.delivered ++ b.delivered
    restartExecuted := a.restartExecuted || b.restartExecuted }

/-- Model of `stream.stop(); stream.close()` on an existing handle: the handle object
stays referenced by the `stream` variable until it is reassigned. -/
def closeStream : Option StreamRec → Option StreamRec
  | none => none
  | some st => some { st with active := false, closed := true }

/-! ## Device resolution (select_input_device, dictate.py lines 574-599) -/

/-- A row of `sd.query_devices()`: the fields select_input_device reads. -/
structure Device where
  name : String
  maxInputChannels : Nat
deriving DecidableEq, Repr

/-- Python `int(arg)` on a string: optional surrounding whitespace, one
optional sign, then decimal digits. -/
def pyInt? (s : String) : Option Int :=
  let t := s.trim
  let neg := t.startsWith "-"
  let core := if neg || t.startsWith "+" then t.drop 1 else t
  match core.toNat? with
  | some n => some (if neg then -(n : Int) else (n : Int))
  | none => none

/-- Test `startsWithChars needle hay`: `hay` begins with `needle`. -/
def startsWithChars : List Char → List Char → Bool
  | [], _ => true
  | _ :: _, [] => false
  | a :: as, b :: bs => a == b && startsWithChars as bs

/-- Test `containsChars needle hay`: `needle` occurs contiguously in `hay`
(Python `needle in hay`). -/
def containsChars (needle : List Char) : List Char → Bool
  | [] => needle.isEmpty
  | c :: rest => startsWithChars needle (c :: rest) || containsChars needle rest

/-- Python `device_arg.lower() in d['name'].lower()`. -/
def strContains (needle haystack : String) : Bool :=
  containsChars needle.toLower.data haystack.toLower.data

/-- Function `select_input_device(device_arg)` from dictate.py: the device list and
the default-input index stand for `sd.query_devices()` and
`sd.default.device[0]`; `none` is the raised
`RuntimeError("No input devices found.")` (the spec's NoInputDeviceError).
Mirrors the source's control flow: the `device_arg` block either returns
early or falls through to the shared default-device code. -/
def select_input_device (devices : List Device) (defaultInput : Option Nat)
    (deviceArg : Option String) : Option Nat :=
  let fromArg : Option Nat :=
    match deviceArg with
    | none => none
    | some arg =>
        match pyInt? arg with
        | some idx =>
            if 0 ≤ idx ∧ idx < (devices.length : Int) then some idx.toNat
            else devices.findIdx? (fun d => strContains arg d.name)
        | none => devices.findIdx? (fun d => strContains arg d.name)
  match fromArg with
  | some i => some i
  | none =>
      match defaultInput with
      | some d => some d
      | none => devices.findIdx? (fun d => decide (0 < d.maxInputChannels))

/-- The device-resolution algorithm exactly as the spec words it
(`resolveDevice(spec)`): numeric index within bounds first; else first
case-insensitive substring match; else the system default input device
(a spec that matched nothing falls back to this same default path, the
source's "Using default." fallback); if no default, the first device with at
least one input channel; else fail. Stated separately from
`select_input_device` so the two can be compared. -/
def resolveDevice (devices : List Device) (defaultInput : Option Nat)
    (spec : Option String) : Option Nat :=
  let defaultPath : Option Nat :=
    match defaultInput with
    | some d => some d
    | none => devices.findIdx? (fun d => decide (0 < d.maxInputChannels))
  let substringPath : String → Option Nat := fun arg =>
    match devices.findIdx? (fun d => strContains arg d.name) with
    | some i => some i
    | none => defaultPath
  match spec with
  | none => defaultPath
  | some arg =>
      match pyInt? arg with
      | none => substringPath arg
      | some k =>
          if 0 ≤ k ∧ k < (devices.length : Int) then some k.toNat
          else substringPath arg

/-! ## toggle_recording (dictate.py lines 185-273) -/

/-- Collaborator outcomes consulted by `toggle_recording` when it must
(re)open the stream: `deviceResult` is the outcome of `select_input_device`
(`none` means it raised), `openActive` describes `sd.InputStream(...)` plus
`stream.start()` (`none` means one of them raised, `some b` means the new
stream reported `active = b` afterwards), `now` is the clock. -/
structure ToggleEnv where
  deviceResult : Option Nat
  openActive : Option Bool
  now : Nat

/-- The `stream_needs_restart` test of toggle_recording: restart unless an
existing stream reports itself active. -/
def streamNeedsRestart : Option StreamRec → Bool
  | none => true
  | some st => !st.active

/-- Function `toggle_recording()` from dictate.py. -/
def toggle_recording (s : SessionState) (env : ToggleEnv) :
    SessionState × Effects :=
  if s.transcribing then
    (s, { noEffects with
            notifications := [("Dictation", "Please wait, transcribing...")] })
  else if !s.recording then
    if streamNeedsRestart s.stream then
      -- reopen path: close the old stream, resolve the device, clear the
      -- queue, construct and start a new stream, verify it is active
      let s₁ : SessionState := { s with stream := closeStream s.stream }
      match env.deviceResult with
      | none =>
          ({ s₁ with streamHealthy := false },
           { noEffects with
               notifications := [("Dictation Error", "Failed to start recording")] })
      | some dev =>
          let s₂ : SessionState := { s₁ with audioQueue := [] }
          match env.openActive with
          | none =>
              ({ s₂ with streamHealthy := false },
               { noEffects with
                   notifications := [("Dictation Error", "Failed to start recording")] })
          | some active =>
              let s₃ : SessionState :=
                { s₂ with stream := some ⟨dev, active, false⟩ }
              if !active then
                ({ s₃ with streamHealthy := false },
                 { noEffects with
                     notifications := [("Dictation Error", "Failed to start recording")] })
              else
                ({ s₃ with streamHealthy := true, lastHeartbeat := env.now,
                           recording := true },
                 { noEffects with
                     notifications := [("Dictation", "Recording started")] })
    else
      ({ s with recording := true, lastHeartbeat := env.now },
       { noEffects with notifications := [("Dictation", "Recording started")] })
  else
    ({ s with recording := false },
     { noEffects with
         notifications := [("Dictation", "Recording stopped")],
         startedPipeline := true })

/-! ## restart_audio_stream (dictate.py lines 369-418) -/

/-- Collaborator outcomes for `restart_audio_stream`: device resolution
outcome, whether constructing and starting the new stream succeeded, and the
clock. -/
structure RestartEnv where
  deviceResult : Option Nat
  openOk : Bool
  now : Nat

/-- Function `restart_audio_stream()` from dictate.py. Its `global` statement lists
`stream, recording, transcribing, audio_queue` but omits `stream_healthy`,
so both `stream_healthy = True` and `stream_healthy = False` inside the
function bind a function-local name and leave the module-level flag
unchanged; the embedding reproduces that. The queue is never touched. -/
def restart_audio_stream (s : SessionState) (env : RestartEnv) :
    SessionState × Effects :=
  let s₁ : SessionState := { s with stream := closeStream s.stream }
  match env.deviceResult with
  | none =>
      ({ s₁ with recording := false },
       { noEffects with
           notifications := [("Dictation Error", "Failed to restart audio")] })
  | some dev =>
      if env.openOk then
        ({ s₁ with stream := some ⟨dev, true, false⟩, lastHeartbeat := env.now },
         { noEffects with
             notifications := [("Dictation", "Audio system recovered")] })
      else
        ({ s₁ with recording := false },
         { noEffects with
             notifications := [("Dictation Error", "Failed to restart audio")] })

/-! ## apply_device_change (dictate.py lines 426-489) -/

/-- Collaborator outcomes for `apply_device_change`: whether
`refresh_sounddevice()` succeeded, the refreshed default-device name, the
device-resolution outcome, the resolved device's display name, whether the
`sd.InputStream(...)` constructor succeeded (it is not started here), and
the clock. -/
structure DeviceEnv where
  refreshOk : Bool
  newDefaultName : String
  deviceResult : Option Nat
  resolvedName : String
  createOk : Bool
  now : Nat

/-- Function `apply_device_change()` from dictate.py: ignored while recording or
transcribing; otherwise closes the pre-bound stream, refreshes the device
cache, records the polled name, and pre-constructs (without starting) a new
stream; any failure sets `stream_healthy` false and notifies. -/
def apply_device_change (s : SessionState) (env : DeviceEnv) :
    SessionState × Effects :=
  if s.recording then (s, noEffects)
  else if s.transcribing then (s, noEffects)
  else
    let s₁ : SessionState := { s with stream := none }
    if !env.refreshOk then
      ({ s₁ with streamHealthy := false },
       { noEffects with
           notifications := [("Dictation Error", "Failed to switch audio device")] })
    else
      let s₂ : SessionState :=
        { s₁ with lastPolledDeviceName := some env.newDefaultName }
      match env.deviceResult with
      | none =>
          ({ s₂ with streamHealthy := false },
           { noEffects with
               notifications := [("Dictation Error", "Failed to switch audio device")] })
      | some dev =>
          if env.createOk then
            ({ s₂ with stream := some ⟨dev, false, false⟩,
                       streamHealthy := true, lastHeartbeat := env.now },
             { noEffects with
                 notifications :=
                   [("Dictation", "Switched to: " ++ env.resolvedName)] })
          else
            ({ s₂ with streamHealthy := false },
             { noEffects with
                 notifications := [("Dictation Error", "Failed to switch audio device")] })

/-! ## transcribe_audio (dictate.py lines 610-715) -/

/-- Drop leading whitespace characters from a character list. -/
def stripLeft : List Char → List Char
  | [] => []
  | c :: cs => if c.isWhitespace then stripLeft cs else c :: cs

/-- Python `str.strip()`: remove whitespace from both ends. -/
def pyStrip (s : String) : String :=
  ⟨(stripLeft (stripLeft s.data).reverse).reverse⟩

/-- Outcome of the supervised engine call: the 60 s budget elapsed first,
the engine raised, or it returned raw text. -/
inductive EngineOutcome where
  | timeout
  | failure
  | success (raw : String)

/-- Collaborators of `transcribe_audio`: the engine outcome and the external
`cleanup_text` collaborator (a pure function per the spec's scope). -/
structure TranscribeEnv where
  outcome : EngineOutcome
  cleanup : String → String

/-- Peak absolute amplitude, `np.max(np.abs(audio))` for a non-empty list
(the fold's base 0 never exceeds an element's absolute value). -/
def maxAmp (audio : List ℚ) : ℚ :=
  audio.foldr (fun x acc => max |x| acc) 0

/-- Function `transcribe_audio()` from dictate.py: drains the queue; empty capture,
silence gate, timeout, engine failure and unexpected errors each notify and
return; on success the text is trimmed, cleaned, trimmed again and a single
space appended before the emptiness check and delivery. Every exit passes
through the `finally` clause clearing `transcribing`. -/
def transcribe_audio (s : SessionState) (env : TranscribeEnv) :
    SessionState × Effects :=
  let audioData := s.audioQueue
  let s₀ : SessionState := { s with transcribing := false, audioQueue := [] }
  if audioData.isEmpty then
    (s₀, { noEffects with notifications := [("Dictation", "No audio recorded")] })
  else
    let audio := audioData.flatten
    if audio.isEmpty then
      -- np.max on an empty array raises; the outer handler catches it
      (s₀, { noEffects with
               notifications := [("Dictation Error", "Transcription error")] })
    else
      let m := maxAmp audio
      if m < 1 / 100000 then
        (s₀, { noEffects with
                 notifications := [("Dictation", "Audio too quiet, try again")] })
      else
        let normalized := audio.map (fun x => x / m)
        match env.outcome with
        | EngineOutcome.timeout =>
            (s₀, { noEffects with
                     engineCalled := true,
                     engineInput := some normalized,
                     notifications :=
                       [("Dictation", "Transcription is taking too long, try again")] })
        | EngineOutcome.failure =>
            (s₀, { noEffects with
                     engineCalled := true,
                     engineInput := some normalized,
                     notifications := [("Dictation Error", "Transcription failed")] })
        | EngineOutcome.success raw =>
            let text := pyStrip (env.cleanup (pyStrip raw)) ++ " "
            if text = "" then
              ({ s₀ with lastTranscript := some text },
               { noEffects with
                   engineCalled := true,
                   engineInput := some normalized,
                   notifications := [("Dictation", "No text detected")] })
            else
              ({ s₀ with lastTranscript := some text },
               { noEffects with
                   engineCalled := true,
                   engineInput := some normalized,
                   delivered := [text] })

/-! ## watchdog_monitor tick (dictate.py lines 311-367) -/

/-- Collaborators of one watchdog loop iteration: the clock, whether the
random idle probe fires this tick (`random.random() < 0.1`), the
environment for a stall restart, whether `refresh_sounddevice()` succeeds in
the polling branch, the polled default-device name, and the environment for
a polling-triggered device change. -/
structure TickEnv where
  now : Nat
  probeFires : Bool
  restartEnv : RestartEnv
  pollRefreshOk : Bool
  polledCurrentName : String
  devEnv : DeviceEnv

/-- One iteration of the `while watchdog_active` loop of
`watchdog_monitor()`: stall detection while recording (heartbeat older than
the 10 s `audio_timeout` invokes `restart_audio_stream`), the random idle
health probe (`test_microphone_access` swallows its own exceptions, so the
probe always ends with `stream_healthy = True`), then the device-polling
fallback every fifth tick while neither recording nor transcribing.
`pollCounter` is the loop-local `poll_counter`. -/
def watchdog_tick (s : SessionState) (pollCounter : Nat) (env : TickEnv) :
    SessionState × Nat × Effects :=
  let step₁ : SessionState × Effects :=
    if s.recording then
      if env.now - s.lastHeartbeat > 10 then
        let r := restart_audio_stream s env.restartEnv
        (r.1, { r.2 with
                 restartExecuted := true,
                 notifications :=
                   ("Dictation Error", "Audio system stalled, recovering...")
                     :: r.2.notifications })
      else (s, noEffects)
    else if !s.recording && !s.transcribing && s.stream.isNone then
      if env.probeFires then ({ s with streamHealthy := true }, noEffects)
      else (s, noEffects)
    else (s, noEffects)
  let s₁ := step₁.1
  let pc := pollCounter + 1
  if pc ≥ 5 && !s₁.recording && !s₁.transcribing then
    if !env.pollRefreshOk then (s₁, 0, step₁.2)
    else
      match s₁.lastPolledDeviceName with
      | some prev =>
          if env.polledCurrentName ≠ prev then
            let r := apply_device_change s₁ env.devEnv
            (r.1, 0, step₁.2.merge r.2)
          else
            ({ s₁ with lastPolledDeviceName := some env.polledCurrentName },
             0, step₁.2)
      | none =>
          ({ s₁ with lastPolledDeviceName := some env.polledCurrentName },
           0, step₁.2)
  else (s₁, pc, step₁.2)

/-! ## The system step relation -/

/-- The whole-process state: the session plus the watchdog's loop-local
poll counter. -/
structure SysState where
  session : SessionState
  pollCounter : Nat

/-- The events that mutate session state: a hotkey toggle, a watchdog tick,
a push device-change notification, and the spawned transcription pipeline
running to completion. -/
inductive SysEvent where
  | toggle (env : ToggleEnv)
  | tick (env : TickEnv)
  | devChange (env : DeviceEnv)
  | pipelineRun (env : TranscribeEnv)

/-- One system step. -/
def sysStep (σ : SysState) (e : SysEvent) : SysState × Effects :=
  match e with
  | SysEvent.toggle env =>
      let r := toggle_recording σ.session env
      (⟨r.1, σ.pollCounter⟩, r.2)
  | SysEvent.tick env =>
      let r := watchdog_tick σ.session σ.pollCounter env
      (⟨r.1, r.2.1⟩, r.2.2)
  | SysEvent.devChange env =>
      let r := apply_device_change σ.session env
      (⟨r.1, σ.pollCounter⟩, r.2)
  | SysEvent.pipelineRun env =>
      let r := transcribe_audio σ.session env
      (⟨r.1, σ.pollCounter⟩, r.2)

/-- Run a list of events from a state. -/
def sysRun (σ : SysState) : List SysEvent → SysState
  | [] => σ
  | e :: es => sysRun (sysStep σ e).1 es

/-- Process start: both flags down, no stream bound yet, empty queue. -/
def initSession : SessionState :=
  { recording := false
    transcribing := false
    stream := none
    streamHealthy := false
    lastHeartbeat := 0
    audioQueue := []
    lastPolledDeviceName := none
    lastTranscript := none }

/-- Initial whole-process state. -/
def initSys : SysState := ⟨initSession, 0⟩

/-! ## Concrete states and environments used by witnesses -/

/-- A recording session whose heartbeat has stalled at time 0. -/
def stalledState : SessionState :=
  { recording := true
    transcribing := false
    stream := some ⟨0, true, false⟩
    streamHealthy := true
    lastHeartbeat := 0
    audioQueue := [[1/2], [3/4]]
    lastPolledDeviceName := some "MacBook Pro Microphone"
    lastTranscript := none }

/-- A session in the middle of a transcription. -/
def transcribingState : SessionState :=
  { initSession with
      transcribing := true
      stream := some ⟨0, false, false⟩
      streamHealthy := true
      audioQueue := [[1/2]] }

/-- An idle session that has just stopped recording, with one captured
chunk. -/
def capturedState : SessionState :=
  { initSession with audioQueue := [[1/2]] }

/-- An idle session holding a quiet capture (peak 1/1000000, below the
1e-5 silence threshold). -/
def quietState : SessionState :=
  { initSession with audioQueue := [[1/1000000, 0]] }

/-- An idle session holding a clearly audible capture (peak 1/2). -/
def loudState : SessionState :=
  { initSession with audioQueue := [[1/2, -1/4]] }

/-- A successful stream (re)open at time 0. -/
def startRecordingEnv : ToggleEnv :=
  { deviceResult := some 0, openActive := some true, now := 0 }

/-- A watchdog tick at time 11 against a heartbeat of 0: past the 10 s
timeout; the restart itself succeeds. -/
def stallTickEnv : TickEnv :=
  { now := 11
    probeFires := false
    restartEnv := { deviceResult := some 0, openOk := true, now := 11 }
    pollRefreshOk := true
    polledCurrentName := "MacBook Pro Microphone"
    devEnv :=
      { refreshOk := true
        newDefaultName := "MacBook Pro Microphone"
        deviceResult := some 0
        resolvedName := "MacBook Pro Microphone"
        createOk := true
        now := 11 } }

/-- A device-change environment for witnesses. -/
def someDeviceEnv : DeviceEnv :=
  { refreshOk := true
    newDefaultName := "AirPods"
    deviceResult := some 2
    resolvedName := "AirPods"
    createOk := true
    now := 30 }

/-- The observable result of a toggle pressed during transcription. -/
def pleaseWaitEffects : Effects :=
  { noEffects with
      notifications := [("Dictation", "Please wait, transcribing...")] }

/-! ## Helper lemmas -/

theorem maxAmp_nil : maxAmp [] = 0 := rfl

theorem maxAmp_cons (a : ℚ) (t : List ℚ) :
    maxAmp (a :: t) = max |a| (maxAmp t) := rfl

theorem maxAmp_nonneg (l : List ℚ) : 0 ≤ maxAmp l := by
  induction l with
  | nil => exact le_refl 0
  | cons a t ih => exact le_trans ih (le_max_right _ _)

theorem abs_le_maxAmp {x : ℚ} {l : List ℚ} (hx : x ∈ l) : |x| ≤ maxAmp l := by
  induction l with
  | nil => cases hx
  | cons a t ih =>
      rcases List.mem_cons.mp hx with h | h
      · rw [h, maxAmp_cons]; exact le_max_left _ _
      · rw [maxAmp_cons]; exact le_trans (ih h) (le_max_right _ _)

theorem maxAmp_map_div (l : List ℚ) {m : ℚ} (hm : 0 < m) :
    maxAmp (l.map (fun x => x / m)) = maxAmp l / m := by
  induction l with
  | nil => simp [maxAmp]
  | cons a t ih =>
      rw [List.map_cons, maxAmp_cons, maxAmp_cons, ih, abs_div,
        abs_of_pos hm, max_div_div_right hm.le]

theorem phase_ne_idle_of_recording {s : SessionState} (h : s.recording = true) :
    phase s ≠ Phase.Idle := by
  unfold phase
  split
  · exact fun hc => Phase.noConfusion hc
  · simp [h]

theorem transcribing_of_phase {s : SessionState}
    (h : phase s = Phase.Transcribing) : s.transcribing = true := by
  by_cases ht : s.transcribing
  · exact ht
  · exfalso
    unfold phase at h
    rw [if_neg ht] at h
    split at h <;> exact Phase.noConfusion h

theorem recording_or_transcribing_of_phase {s : SessionState}
    (h : phase s ≠ Phase.Idle) : s.recording = true ∨ s.transcribing = true := by
  by_cases ht : s.transcribing
  · exact Or.inr ht
  · by_cases hr : s.recording
    · exact Or.inl hr
    · exfalso
      apply h
      unfold phase
      rw [if_neg ht, if_neg hr]

theorem apply_device_change_no_restart (s : SessionState) (env : DeviceEnv) :
    (apply_device_change s env).2.restartExecuted = false := by
  unfold apply_device_change
  repeat' split
  all_goals rfl

theorem maxAmp_quiet : maxAmp quietState.audioQueue.flatten = 1 / 1000000 := by
  have h : quietState.audioQueue.flatten = [1/1000000, 0] := by
    simp [quietState, initSession]
  rw [h, maxAmp_cons, maxAmp_cons, maxAmp_nil]
  norm_num [max_def]

theorem maxAmp_loud : maxAmp loudState.audioQueue.flatten = 1 / 2 := by
  have h : loudState.audioQueue.flatten = [1/2, -1/4] := by
    simp [loudState, initSession]
  rw [h, maxAmp_cons, maxAmp_cons, maxAmp_nil,
    abs_of_nonneg (by norm_num : (0:ℚ) ≤ 1/2),
    abs_of_nonpos (by norm_num : (-1/4:ℚ) ≤ 0)]
  norm_num [max_def]

theorem maxAmp_captured : maxAmp capturedState.audioQueue.flatten = 1 / 2 := by
  have h : capturedState.audioQueue.flatten = [1/2] := by
    simp [capturedState, initSession]
  rw [h, maxAmp_cons, maxAmp_nil]
  norm_num [max_def]

/-! ## Claim theorems -/

/-- Claim C1: evaluation of the code at the failing input. When a
watchdog-triggered restart fails (here: device resolution raises) from a
session whose stream-health flag was true, `restart_audio_stream` clears
`recording` and emits the failure notification, but — contrary to the claim
— leaves the module-level `streamHealthy` flag still true, because the
function's `global` statement omits `stream_healthy` and its assignments
bind a local name instead. -/
theorem failed_restart_keeps_streamHealthy :
    (restart_audio_stream stalledState ⟨none, false, 42⟩).1.streamHealthy = true ∧
    (restart_audio_stream stalledState ⟨none, false, 42⟩).1.recording = false ∧
    (restart_audio_stream stalledState ⟨none, false, 42⟩).2.notifications
      = [("Dictation Error", "Failed to restart audio")] :=
  ⟨rfl, rfl, rfl⟩

/-- Claim C2: every invocation of the transcription pipeline — empty
capture, silence gate, timeout, engine failure, unexpected error, or
success — ends with the `transcribing` flag false, so phase has returned
from Transcribing. -/
theorem transcribe_audio_always_clears_transcribing
    (s : SessionState) (env : TranscribeEnv) :
    (transcribe_audio s env).1.transcribing = false := by
  unfold transcribe_audio
  dsimp only
  repeat' split
  all_goals rfl

/-- Claim C3: a toggle arriving while the phase is Transcribing changes no
session state and has no observable effect beyond the single
"Please wait, transcribing..." notice; in particular no second pipeline is
spawned. -/
theorem toggle_while_transcribing_is_noop (s : SessionState) (env : ToggleEnv)
    (h : phase s = Phase.Transcribing) :
    toggle_recording s env = (s, pleaseWaitEffects) := by
  have ht : s.transcribing = true := transcribing_of_phase h
  unfold toggle_recording
  rw [if_pos ht]
  rfl

/-- Witness for C3 at a concrete transcribing session. -/
theorem toggle_while_transcribing_is_noop_instance :
    toggle_recording transcribingState startRecordingEnv
      = (transcribingState, pleaseWaitEffects) :=
  toggle_while_transcribing_is_noop transcribingState startRecordingEnv (by decide)

/-- Claim C4: a device change (push notification or polling fallback)
arriving while the phase is not Idle is ignored entirely: the session state
is returned unchanged (no stream stopped, closed or reopened; health flag,
heartbeat and polled name untouched) and no observable effect is produced. -/
theorem device_change_suppressed_outside_idle (s : SessionState)
    (env : DeviceEnv) (h : phase s ≠ Phase.Idle) :
    apply_device_change s env = (s, noEffects) := by
  unfold apply_device_change
  by_cases hr : s.recording
  · rw [if_pos hr]
  · rw [if_neg hr]
    rcases recording_or_transcribing_of_phase h with h' | h'
    · exact absurd h' hr
    · rw [if_pos h']

/-- Witness for C4 at a concrete recording session. -/
theorem device_change_suppressed_outside_idle_instance :
    apply_device_change stalledState someDeviceEnv = (stalledState, noEffects) :=
  device_change_suppressed_outside_idle stalledState someDeviceEnv (by decide)

/-- Claim C5 counterexample: a reachable execution of the step relation —
process start, a toggle that opens the stream and begins recording, then a
watchdog tick at time 11 against the stalled heartbeat of 0 — in which the
watchdog-triggered stream restart executes while the phase is Recording,
not Idle. -/
theorem watchdog_restart_executes_while_recording :
    phase (sysRun initSys [SysEvent.toggle startRecordingEnv]).session
        = Phase.Recording ∧
    (sysStep (sysRun initSys [SysEvent.toggle startRecordingEnv])
        (SysEvent.tick stallTickEnv)).2.restartExecuted = true :=
  ⟨rfl, rfl⟩

/-- Claim C5 (amended): a watchdog-triggered stream restart executes only
while the recording flag is set — that is, only while the phase is not
Idle — and is handled within the same tick, never queued. -/
theorem watchdog_restart_only_while_recording (s : SessionState) (pc : Nat)
    (env : TickEnv)
    (h : (watchdog_tick s pc env).2.2.restartExecuted = true) :
    s.recording = true ∧ phase s ≠ Phase.Idle := by
  by_cases hr : s.recording
  · exact ⟨hr, phase_ne_idle_of_recording hr⟩
  · exfalso
    rw [Bool.not_eq_true] at hr
    unfold watchdog_tick at h
    dsimp only at h
    rw [hr] at h
    repeat' split at h
    all_goals simp_all [Effects.merge, apply_device_change_no_restart, noEffects]

/-- Witness for the amended C5: the stalled recording session does trigger
a restart, and its phase is Recording, not Idle. -/
theorem watchdog_restart_only_while_recording_instance :
    stalledState.recording = true ∧ phase stalledState ≠ Phase.Idle :=
  watchdog_restart_only_while_recording stalledState 0 stallTickEnv (by decide)

/-- Claim C6: evaluation at the failing input. The engine succeeds with raw
text that cleans to empty, yet delivery is still invoked — with the
single-space string, which is also recorded as the last transcript — and no
"No text detected" notice is produced: the code appends a space to the
cleaned text before its emptiness check, so the check never fails. -/
theorem empty_cleaned_text_still_delivered :
    (transcribe_audio capturedState ⟨EngineOutcome.success "", id⟩).2.delivered
        = [" "] ∧
    (transcribe_audio capturedState ⟨EngineOutcome.success "", id⟩).1.lastTranscript
        = some " " ∧
    (transcribe_audio capturedState ⟨EngineOutcome.success "", id⟩).2.notifications
        = [] := by
  have hqne : capturedState.audioQueue ≠ [] := by
    simp [capturedState, initSession]
  have hne : capturedState.audioQueue.flatten ≠ [] := by
    simp [capturedState, initSession]
  have hm : ¬ maxAmp capturedState.audioQueue.flatten < 1 / 100000 := by
    rw [maxAmp_captured]
    norm_num
  unfold transcribe_audio
  dsimp only
  simp only [List.isEmpty_eq_false.mpr hqne, List.isEmpty_eq_false.mpr hne,
    Bool.false_eq_true, if_false, if_neg hm]
  exact ⟨rfl, rfl, rfl⟩

/-- Claim C7: device resolution implements exactly the algorithm the spec
states — `select_input_device`, embedded from the source, agrees with
`resolveDevice`, the clause-by-clause transcription of the spec wording,
on every device list, default-input index and device spec. -/
theorem select_input_device_matches_spec (devices : List Device)
    (defaultInput : Option Nat) (spec : Option String) :
    select_input_device devices defaultInput spec
      = resolveDevice devices defaultInput spec := by
  unfold select_input_device resolveDevice
  dsimp only
  cases spec with
  | none => rfl
  | some arg =>
      cases h : pyInt? arg with
      | none => simp only [h]
      | some k =>
          simp only [h]
          by_cases hb : 0 ≤ k ∧ k < (devices.length : Int)
          · rw [if_pos hb, if_pos hb]
          · rw [if_neg hb, if_neg hb]

/-- Claim C8: the silence gate. For a capture with at least one sample
whose peak absolute amplitude is strictly below 1e-5, the pipeline notifies
"audio too quiet", never invokes the engine, and — recording having already
stopped — the phase returns to Idle. -/
theorem silence_gate_skips_engine (s : SessionState) (env : TranscribeEnv)
    (hne : s.audioQueue.flatten ≠ [])
    (hq : maxAmp s.audioQueue.flatten < 1 / 100000)
    (hr : s.recording = false) :
    (transcribe_audio s env).2.engineCalled = false ∧
    (transcribe_audio s env).2.notifications
        = [("Dictation", "Audio too quiet, try again")] ∧
    phase (transcribe_audio s env).1 = Phase.Idle := by
  have hqne : s.audioQueue ≠ [] := by
    intro h0
    rw [h0] at hne
    exact hne rfl
  unfold transcribe_audio
  dsimp only
  simp only [List.isEmpty_eq_false.mpr hqne, List.isEmpty_eq_false.mpr hne,
    Bool.false_eq_true, if_false, if_pos hq]
  simp [phase, hr, noEffects]

/-- Witness for C8: a quiet capture (peak 1/1000000) skips the engine. -/
theorem silence_gate_skips_engine_instance :
    (transcribe_audio quietState ⟨EngineOutcome.failure, id⟩).2.engineCalled
        = false ∧
    (transcribe_audio quietState ⟨EngineOutcome.failure, id⟩).2.notifications
        = [("Dictation", "Audio too quiet, try again")] ∧
    phase (transcribe_audio quietState ⟨EngineOutcome.failure, id⟩).1
        = Phase.Idle :=
  silence_gate_skips_engine quietState ⟨EngineOutcome.failure, id⟩
    (by simp [quietState, initSession])
    (by rw [maxAmp_quiet]; norm_num) rfl

/-- Claim C9: normalization. For a capture with at least one sample whose
peak `m` is at or above the silence threshold, the sequence handed to the
engine is the original divided elementwise by `m`; in exact arithmetic its
peak absolute value equals 1 and every sample lies in [-1, 1]. -/
theorem normalization_bounds (s : SessionState) (env : TranscribeEnv)
    (hne : s.audioQueue.flatten ≠ [])
    (hm : 1 / 100000 ≤ maxAmp s.audioQueue.flatten) :
    (transcribe_audio s env).2.engineInput
        = some ((s.audioQueue.flatten).map
            (fun x => x / maxAmp s.audioQueue.flatten)) ∧
    maxAmp ((s.audioQueue.flatten).map
        (fun x => x / maxAmp s.audioQueue.flatten)) = 1 ∧
    ∀ y ∈ (s.audioQueue.flatten).map
        (fun x => x / maxAmp s.audioQueue.flatten), -1 ≤ y ∧ y ≤ 1 := by
  have hqne : s.audioQueue ≠ [] := by
    intro h0
    rw [h0] at hne
    exact hne rfl
  have hmpos : 0 < maxAmp s.audioQueue.flatten :=
    lt_of_lt_of_le (by norm_num) hm
  refine ⟨?_, ?_, ?_⟩
  · obtain ⟨outc, cf⟩ := env
    unfold transcribe_audio
    dsimp only
    simp only [List.isEmpty_eq_false.mpr hqne, List.isEmpty_eq_false.mpr hne,
      Bool.false_eq_true, if_false, if_neg (not_lt.mpr hm)]
    cases outc with
    | timeout => rfl
    | failure => rfl
    | success raw =>
        dsimp only
        split
        all_goals rfl
  · rw [maxAmp_map_div _ hmpos, div_self (ne_of_gt hmpos)]
  · intro y hy
    rcases List.mem_map.mp hy with ⟨x, hx, hxy⟩
    have h1 : |y| ≤ 1 := by
      rw [← hxy, abs_div, abs_of_pos hmpos, div_le_one hmpos]
      exact abs_le_maxAmp hx
    exact abs_le.mp h1

/-- Witness for C9 at a concrete two-sample capture with peak 1/2. -/
theorem normalization_bounds_instance :
    (transcribe_audio loudState ⟨EngineOutcome.timeout, id⟩).2.engineInput
        = some ((loudState.audioQueue.flatten).map
            (fun x => x / maxAmp loudState.audioQueue.flatten)) ∧
    maxAmp ((loudState.audioQueue.flatten).map
        (fun x => x / maxAmp loudState.audioQueue.flatten)) = 1 ∧
    ∀ y ∈ (loudState.audioQueue.flatten).map
        (fun x => x / maxAmp loudState.audioQueue.flatten), -1 ≤ y ∧ y ≤ 1 :=
  normalization_bounds loudState ⟨EngineOutcome.timeout, id⟩
    (by simp [loudState, initSession])
    (by rw [maxAmp_loud]; norm_num)

/-- Claim C10: a watchdog-triggered restart never drains or clears the
audio buffer — the queue, and with it the flat sample sequence the next
transcription gathers, survives any restart unchanged, as it does any
device change; residual buffered audio is cleared only on
toggle_recording's stream (re)open path. -/
theorem restart_preserves_audio_buffer :
    (∀ s env, (restart_audio_stream s env).1.audioQueue = s.audioQueue) ∧
    (∀ s env, (restart_audio_stream s env).1.audioQueue.flatten
        = s.audioQueue.flatten) ∧
    (∀ s env, (apply_device_change s env).1.audioQueue = s.audioQueue) ∧
    (∀ s env dev, s.transcribing = false → s.recording = false →
        streamNeedsRestart s.stream = true → env.deviceResult = some dev →
        (toggle_recording s env).1.audioQueue = []) := by
  have hrestart : ∀ s env,
      (restart_audio_stream s env).1.audioQueue = s.audioQueue := by
    intro s env
    unfold restart_audio_stream
    dsimp only
    repeat' split
    all_goals rfl
  refine ⟨hrestart, fun s env => by rw [hrestart], ?_, ?_⟩
  · intro s env
    unfold apply_device_change
    dsimp only
    repeat' split
    all_goals rfl
  · intro s env dev ht hr hneed hdev
    unfold toggle_recording
    dsimp only
    simp only [ht, hr, hneed, hdev, Bool.not_false, Bool.false_eq_true,
      if_false, if_true]
    repeat' split
    all_goals rfl

/-- Witness for C10: the toggle that starts recording from an idle session
with a residual chunk and no active stream clears the queue. -/
theorem restart_preserves_audio_buffer_instance :
    (toggle_recording capturedState startRecordingEnv).1.audioQueue = [] :=
  restart_preserves_audio_buffer.2.2.2 capturedState startRecordingEnv 0
    rfl rfl rfl rfl

end Dictate

